import Mathlib

/-!
Verification development for the AquaSentry tank-monitoring backend.

The Python backend is shallowly embedded here: dictionaries become
structures with `Option` fields (a missing key is `none`, and every
`dict.get(key, default)` from the source becomes an explicit lookup with
the same default), floats become exact rationals (`ℚ`), Python dates
become a calendar-date structure with the proleptic-Gregorian ordinal
arithmetic that CPython's `datetime.date` implements (including its
`MINYEAR = 1` / `MAXYEAR = 9999` range, outside which `date + timedelta`
raises `OverflowError`), and functions that can raise or return error
dictionaries return tagged result values.
-/

/-- Python `int(x)` on a float/rational: truncation toward zero. -/
def pyInt (q : ℚ) : ℤ := if 0 ≤ q then Rat.floor q else -(Rat.floor (-q))

/-- Python `round(x)` to an integer: round half to even (banker's rounding). -/
def roundHalfEven (q : ℚ) : ℤ :=
  let f := Rat.floor q
  let r := q - (f : ℚ)
  if r < 1/2 then f
  else if 1/2 < r then f + 1
  else if f % 2 = 0 then f else f + 1

/-- Python `round(x, digits)` for a positive digit count, as used by
`round(v, 2)` / `round(v, 1)` in `ai_prediction_service.py`. -/
def roundTo (q : ℚ) (digits : ℕ) : ℚ :=
  (roundHalfEven (q * ((10 : ℚ) ^ digits)) : ℚ) / ((10 : ℚ) ^ digits)

/-- A calendar date, mirroring `datetime.date` (year/month/day). -/
structure PyDate where
  year : ℕ
  month : ℕ
  day : ℕ
deriving DecidableEq

/-- Gregorian leap-year rule, as implemented by `datetime`. -/
def isLeapYear (y : ℕ) : Bool :=
  (y % 4 == 0 && !(y % 100 == 0)) || (y % 400 == 0)

/-- Number of days in a month of a given year. -/
def daysInMonth (y m : ℕ) : ℕ :=
  if m = 2 then (if isLeapYear y then 29 else 28)
  else if m = 4 ∨ m = 6 ∨ m = 9 ∨ m = 11 then 30
  else 31

/-- Day count of a civil date (days since 1970-01-01, Hinnant's
`days_from_civil` algorithm on floor division); this is the date ordinal
that `datetime.date.toordinal` computes, up to a constant shift. -/
def daysFromCivil (dt : PyDate) : ℤ :=
  let y : ℤ := if dt.month ≤ 2 then (dt.year : ℤ) - 1 else (dt.year : ℤ)
  let m : ℤ := (dt.month : ℤ)
  let d : ℤ := (dt.day : ℤ)
  let era : ℤ := Int.fdiv y 400
  let yoe : ℤ := y - era * 400
  let mp : ℤ := if 2 < m then m - 3 else m + 9
  let doy : ℤ := Int.fdiv (153 * mp + 2) 5 + d - 1
  let doe : ℤ := yoe * 365 + Int.fdiv yoe 4 - Int.fdiv yoe 100 + doy
  era * 146097 + doe - 719468

/-- Inverse of `daysFromCivil` (Hinnant's `civil_from_days`). -/
def civilFromDays (z0 : ℤ) : PyDate :=
  let z : ℤ := z0 + 719468
  let era : ℤ := Int.fdiv z 146097
  let doe : ℤ := z - era * 146097
  let yoe : ℤ :=
    Int.fdiv (doe - Int.fdiv doe 1460 + Int.fdiv doe 36524 - Int.fdiv doe 146096) 365
  let y : ℤ := yoe + era * 400
  let doy : ℤ := doe - (365 * yoe + Int.fdiv yoe 4 - Int.fdiv yoe 100)
  let mp : ℤ := Int.fdiv (5 * doy + 2) 153
  let d : ℤ := doy - Int.fdiv (153 * mp + 2) 5 + 1
  let m : ℤ := if mp < 10 then mp + 3 else mp - 9
  let yr : ℤ := if m ≤ 2 then y + 1 else y
  ⟨yr.toNat, m.toNat, d.toNat⟩

/-- Date plus a day offset, ignoring the `datetime` range check (used where
the source adds small offsets to `datetime.now()`). -/
def addDays (dt : PyDate) (n : ℤ) : PyDate :=
  civilFromDays (daysFromCivil dt + n)

/-- Ordinal of `date.min = 0001-01-01`. -/
def minOrdinal : ℤ := daysFromCivil ⟨1, 1, 1⟩

/-- Ordinal of `date.max = 9999-12-31`. -/
def maxOrdinal : ℤ := daysFromCivil ⟨9999, 12, 31⟩

/-- Date plus a day offset with CPython's range check: `date + timedelta`
raises `OverflowError` (here: `none`) when the result falls outside
`[date.min, date.max]`. -/
def addDaysChecked (dt : PyDate) (n : ℤ) : Option PyDate :=
  let z := daysFromCivil dt + n
  if minOrdinal ≤ z ∧ z ≤ maxOrdinal then some (civilFromDays z) else none

/-- Split a character list on `'-'`, like Python's `str.split("-")`. -/
def splitDash : List Char → List (List Char)
  | [] => [[]]
  | c :: cs =>
    let rest := splitDash cs
    if c = '-' then [] :: rest
    else
      match rest with
      | r :: rs => (c :: r) :: rs
      | [] => [[c]]

/-- Numeric value of a list of decimal digit characters. -/
def digitsVal (l : List Char) : ℕ :=
  l.foldl (fun n c => 10 * n + (c.toNat - 48)) 0

/-- True when the list is nonempty and all characters are ASCII digits. -/
def allDigits (l : List Char) : Bool :=
  !l.isEmpty && l.all (fun c => c.isDigit)

/-- `datetime.strptime(s, "%Y-%m-%d").date()` as a total function:
`%Y` matches exactly four digits, `%m` and `%d` match one or two digits
with the month in 1..12 and the day in 1..31, and the `date` constructor
then enforces year ≥ 1 and day ≤ length of the month.  `none` is the
`ValueError` that `update_maintenance` catches. -/
def parseDate (s : String) : Option PyDate :=
  match splitDash s.toList with
  | [ys, ms, ds] =>
    if ys.length == 4 && allDigits ys &&
       decide (1 ≤ ms.length) && ms.length ≤ 2 && allDigits ms &&
       decide (1 ≤ ds.length) && ds.length ≤ 2 && allDigits ds then
      let y := digitsVal ys
      let m := digitsVal ms
      let d := digitsVal ds
      if 1 ≤ y && 1 ≤ m && m ≤ 12 && 1 ≤ d && d ≤ daysInMonth y m then
        some ⟨y, m, d⟩
      else none
    else none
  | _ => none

/-- Two-digit zero-padded decimal rendering (`%m`, `%d` in `strftime`). -/
def pad2 (n : ℕ) : String :=
  (if n < 10 then "0" else "") ++ toString n

/-- Four-digit zero-padded decimal rendering (`%Y` in `strftime`). -/
def pad4 (n : ℕ) : String :=
  (if n < 10 then "000" else if n < 100 then "00" else if n < 1000 then "0" else "") ++
    toString n

/-- `d.strftime("%Y-%m-%d")`. -/
def formatDate (dt : PyDate) : String :=
  pad4 dt.year ++ "-" ++ pad2 dt.month ++ "-" ++ pad2 dt.day

/-- A tank's `current_readings` dictionary (used across services): any of
the keys may be absent. -/
structure Readings where
  ph : Option ℚ
  turbidity : Option ℚ
  temperature : Option ℚ
deriving DecidableEq

/-- `readings.get(field, default)` where `readings` itself may be a missing
dictionary (`tank.get('current_readings', {})`). -/
def getReading (field : Readings → Option ℚ) (r : Option Readings) (d0 : ℚ) : ℚ :=
  match r with
  | none => d0
  | some rr => (field rr).getD d0

/-! ### `tank_service.py` -/

/-- `get_tank_status(tank)` from `tank_service.py` (lines 18-28), as a
function of the tank's `current_readings` dictionary and the already
computed `days_since_cleaned`:

    if turbidity > 5 or ph < 6.5 or ph > 8.5 or days_since_cleaned > 30:
        if turbidity > 7 or ph < 6.0 or ph > 9.0 or days_since_cleaned > 60:
            return 'critical'
        return 'warning'
    return 'normal'
-/
def get_tank_status (current_readings : Option Readings) (days_since_cleaned : ℤ) : String :=
  let ph := getReading Readings.ph current_readings 7
  let turbidity := getReading Readings.turbidity current_readings 0
  if turbidity > 5 ∨ ph < 6.5 ∨ ph > 8.5 ∨ days_since_cleaned > 30 then
    if turbidity > 7 ∨ ph < 6 ∨ ph > 9 ∨ days_since_cleaned > 60 then "critical"
    else "warning"
  else "normal"

/-- Status classification exactly as the claim words it: `critical` if ANY
of turbidity > 7, pH < 6.0, pH > 9.0, days > 60; else `warning` if pH
outside [6.5, 8.5], turbidity > 5 or days > 30; else `normal`.  This is a
spec-side rephrasing, to be compared with `get_tank_status`. -/
def statusClaimForm (ph turbidity : ℚ) (days_since_cleaned : ℤ) : String :=
  if turbidity > 7 ∨ ph < 6 ∨ ph > 9 ∨ days_since_cleaned > 60 then "critical"
  else if ph < 6.5 ∨ ph > 8.5 ∨ turbidity > 5 ∨ days_since_cleaned > 30 then "warning"
  else "normal"

/-! ### `analytics_service.py` -/

/-- The `issues` list accumulated by `analyze_water_quality` (lines 5-31).
The Python strings interpolate the offending value; only the constant
descriptor is kept here, which leaves the list length (all the rollup
uses) unchanged. -/
def water_quality_issues (current_readings : Option Readings) : List String :=
  let ph := getReading Readings.ph current_readings 7
  let turbidity := getReading Readings.turbidity current_readings 0
  let temperature := getReading Readings.temperature current_readings 20
  (if ph < 6.5 then ["pH too low"] else if ph > 8.5 then ["pH too high"] else []) ++
  (if turbidity > 5 then ["High turbidity"]
   else if turbidity > 3 then ["Elevated turbidity"] else []) ++
  (if temperature > 25 then ["Temperature elevated"] else [])

/-- The `risk_level` field of `analyze_water_quality` (line 38):
`'critical' if len(issues) >= 2 else 'warning' if len(issues) == 1 else 'normal'`. -/
def analyze_water_quality_risk_level (current_readings : Option Readings) : String :=
  let issues := water_quality_issues current_readings
  if 2 ≤ issues.length then "critical"
  else if issues.length = 1 then "warning"
  else "normal"

/-- Number of water-quality issue categories as the claim counts them:
pH outside [6.5, 8.5] is one issue, turbidity above 3 (which subsumes the
code's `> 5` elif-chain for counting purposes) is one issue, temperature
above 25 is one issue.  Spec-side definition for comparison with
`water_quality_issues`. -/
def issueCountClaim (ph turbidity temperature : ℚ) : ℕ :=
  (if ph < 6.5 ∨ ph > 8.5 then 1 else 0) +
  (if turbidity > 3 then 1 else 0) +
  (if temperature > 25 then 1 else 0)

/-- The status-count fields of `get_system_analytics` (lines 53-67). -/
structure SystemCounts where
  critical_count : ℕ
  warning_count : ℕ
  normal_count : ℕ
deriving DecidableEq

/-- `critical_count` / `warning_count` / `normal_count` of
`get_system_analytics`: tanks are filtered by `analyze_water_quality`'s
risk level, and `normal_count = len(tanks) - len(critical) - len(warning)`. -/
def get_system_analytics_counts (tanks : List (Option Readings)) : SystemCounts :=
  let critical_tanks := tanks.filter (fun t => analyze_water_quality_risk_level t == "critical")
  let warning_tanks := tanks.filter (fun t => analyze_water_quality_risk_level t == "warning")
  ⟨critical_tanks.length, warning_tanks.length,
   tanks.length - critical_tanks.length - warning_tanks.length⟩

/-- One history sample as accessed by `get_trend_analysis` (lines 85-104):
the Python code indexes `['ph']`, `['turbidity']`, `['temperature']`
directly, so the fields are mandatory here. -/
structure HSample where
  ph : ℚ
  turbidity : ℚ
  temperature : ℚ
deriving DecidableEq

/-- Result of `get_trend_analysis` for a tank that exists: either the
`insufficient_data` dictionary or the three trend labels together with
`data_points = len(history)`. -/
inductive TrendResult where
  | insufficientData
  | report (ph_trend turbidity_trend temperature_trend : String) (data_points : ℕ)
deriving DecidableEq

/-- The per-metric comparison used by `get_trend_analysis`:
`'increasing'` if `recent - older > threshold`, `'decreasing'` if
`older - recent > threshold`, else `'stable'`. -/
def trendOf (recent older threshold : ℚ) : String :=
  if recent - older > threshold then "increasing"
  else if older - recent > threshold then "decreasing"
  else "stable"

/-- `get_trend_analysis` (lines 81-112) on the tank's history list:
fewer than two points give `insufficient_data`, otherwise the last sample
(`history[-1]`) is compared against the first (`history[0]`) with
thresholds 0.3 / 1 / 1. -/
def get_trend_analysis : List HSample → TrendResult
  | [] => .insufficientData
  | [_] => .insufficientData
  | h0 :: h1 :: rest =>
    let recent := List.getLastD (h0 :: h1 :: rest) h0
    let older := h0
    .report (trendOf recent.ph older.ph 0.3)
      (trendOf recent.turbidity older.turbidity 1)
      (trendOf recent.temperature older.temperature 1)
      (h0 :: h1 :: rest).length

/-! ### `ai_prediction_service.py` — fallback predictors -/

/-- One horizon of `generate_fallback_prediction`'s output. -/
structure Horizon where
  ph : ℚ
  turbidity : ℚ
  temperature : ℚ
  confidence : ℚ
deriving DecidableEq

/-- Output of `generate_fallback_prediction` (the `prediction` dictionary,
flattened). -/
structure QualityPrediction where
  pred24 : Horizon
  pred48 : Horizon
  ph_trend : String
  turbidity_trend : String
  temperature_trend : String
  risk_level : String
  risk_factors : List String
deriving DecidableEq

/-- `generate_fallback_prediction(tank_data, history)` (lines 118-173).
History entries are dictionaries read with `.get(key, current_value)`,
so they reuse `Readings`; the per-sample rate divides `last - first` by
`len(history)`. -/
def generate_fallback_prediction (current_readings : Option Readings)
    (history : List Readings) : QualityPrediction :=
  let ph := getReading Readings.ph current_readings 7
  let turbidity := getReading Readings.turbidity current_readings 1
  let temp := getReading Readings.temperature current_readings 20
  let trends : ℚ × ℚ × ℚ :=
    match history with
    | h0 :: h1 :: rest =>
      let last := List.getLastD (h0 :: h1 :: rest) h0
      let n : ℚ := ((h0 :: h1 :: rest).length : ℚ)
      ((last.ph.getD ph - h0.ph.getD ph) / n,
       (last.turbidity.getD turbidity - h0.turbidity.getD turbidity) / n,
       (last.temperature.getD temp - h0.temperature.getD temp) / n)
    | _ => (0, 0, 0)
  let ph_t := trends.1
  let tu_t := trends.2.1
  let te_t := trends.2.2
  { pred24 := ⟨roundTo (ph + ph_t) 2, roundTo (max 0 (turbidity + tu_t)) 2,
               roundTo (temp + te_t) 1, 0.7⟩,
    pred48 := ⟨roundTo (ph + ph_t * 2) 2, roundTo (max 0 (turbidity + tu_t * 2)) 2,
               roundTo (temp + te_t * 2) 1, 0.5⟩,
    ph_trend := if |ph_t| < 0.1 then "stable"
                else if ph_t > 0 then "increasing" else "decreasing",
    turbidity_trend := if |tu_t| < 0.2 then "stable"
                       else if tu_t > 0 then "increasing" else "decreasing",
    temperature_trend := if |te_t| < 0.3 then "stable"
                         else if te_t > 0 then "increasing" else "decreasing",
    risk_level := if turbidity > 5 ∨ ph < 6.5 ∨ ph > 8.5 then "high" else "low",
    risk_factors := if turbidity > 5 ∨ ph < 6.5 ∨ ph > 8.5 then
                      ["Current readings exceed safe thresholds"]
                    else [] }

/-- The `level_changes` list of `detect_leakage_fallback` (lines 240-244):
consecutive differences of the history's turbidity values (default 0).
`zipWith` over the list and its tail yields `[]` for histories shorter
than 2, matching the guarded Python loop. -/
def turbidity_changes (history : List Readings) : List ℚ :=
  List.zipWith (fun prev next => next.turbidity.getD 0 - prev.turbidity.getD 0)
    history history.tail

/-- `avg_change` of `detect_leakage_fallback` (line 246):
`sum(level_changes) / len(level_changes) if level_changes else 0`. -/
def avg_turbidity_change (history : List Readings) : ℚ :=
  let cs := turbidity_changes history
  if cs.length = 0 then 0 else cs.sum / (cs.length : ℚ)

/-- The `analysis` dictionary built by `detect_leakage_fallback`. -/
structure LeakAnalysis where
  anomaly_detected : Bool
  anomaly_type : String
  severity : String
  confidence : ℚ
  overflow_risk_percent : ℚ
  government_alert_required : Bool
deriving DecidableEq

/-- `detect_leakage_fallback(tank_data, history)` (lines 237-277);
`current_level_percent` is read with default 50. -/
def detect_leakage_fallback (current_level_percent : Option ℚ)
    (history : List Readings) : LeakAnalysis :=
  let current_level := current_level_percent.getD 50
  let avg_change := avg_turbidity_change history
  let anomaly_detected : Bool := decide (current_level < 30 ∨ current_level > 95 ∨ |avg_change| > 1)
  { anomaly_detected := anomaly_detected,
    anomaly_type :=
      if !anomaly_detected then "none"
      else if current_level > 95 then "overflow"
      else if current_level < 30 then "leakage"
      else "unusual_consumption",
    severity := if !anomaly_detected then "none" else "medium",
    confidence := 0.6,
    overflow_risk_percent :=
      if current_level > 85 then max 0 ((current_level - 85) * 5) else 0,
    government_alert_required := anomaly_detected && decide (current_level < 20) }

/-- The `maintenance` dictionary built by `predict_maintenance_fallback`
(constant fields elided). -/
structure MaintenanceRec where
  recommended_cleaning_date : String
  urgency : String
  days_until_recommended : ℤ
  cleaning_type : String
  risk_if_delayed : String
  bis_compliant : Bool
deriving DecidableEq

/-- `predict_maintenance_fallback(tank_data)` (lines 350-389):
`days_since_cleaned` is read with default 0 and turbidity with default 0;
`recommended_cleaning_date = datetime.now() + timedelta(days=days_until)`,
with `now` passed explicitly here. -/
def predict_maintenance_fallback (today : PyDate) (days_since_cleaned? : Option ℤ)
    (current_readings : Option Readings) : MaintenanceRec :=
  let days_since_cleaned := days_since_cleaned?.getD 0
  let turbidity := getReading Readings.turbidity current_readings 0
  let ud : String × ℤ :=
    if turbidity > 5 ∨ days_since_cleaned > 45 then ("immediate", 0)
    else if turbidity > 3 ∨ days_since_cleaned > 35 then ("urgent", 3)
    else if days_since_cleaned > 25 then ("soon", 7)
    else ("routine", max 0 (30 - days_since_cleaned))
  { recommended_cleaning_date := formatDate (addDays today ud.2),
    urgency := ud.1,
    days_until_recommended := ud.2,
    cleaning_type := if ud.1 = "immediate" then "emergency" else "routine",
    risk_if_delayed := if ud.1 = "immediate" ∨ ud.1 = "urgent" then "high" else "medium",
    bis_compliant := decide (days_since_cleaned ≤ 30) }

/-- One entry of `forecast_demand_fallback`'s `daily_forecasts`. -/
structure DailyForecast where
  day : ℕ
  date : String
  predicted_demand_liters : ℤ
  confidence : ℚ
deriving DecidableEq

/-- The `forecast` dictionary built by `forecast_demand_fallback`. -/
structure DemandForecast where
  daily_forecasts : List DailyForecast
  weekly_total_demand_liters : ℤ
  average_daily_demand_liters : ℤ
deriving DecidableEq

/-- `total_capacity = sum(t.get("capacity_liters", 0) for t in tanks_data)`. -/
def fleet_total_capacity (capacities : List (Option ℤ)) : ℤ :=
  (capacities.map (fun c => c.getD 0)).sum

/-- `avg_daily_consumption = total_capacity * 0.15` (line 473). -/
def fleet_avg_daily_consumption (capacities : List (Option ℤ)) : ℚ :=
  (fleet_total_capacity capacities : ℚ) * 0.15

/-- `forecast_demand_fallback(tanks_data)` (lines 471-506): seven daily
entries with multiplier `1.0 if i < 5 else 0.85` and
`weekly_total_demand_liters = int(avg_daily_consumption * 6.7)`.
`datetime.now()` is passed explicitly as `today` (assumed far enough from
`date.max` that the small offsets cannot overflow). -/
def forecast_demand_fallback (today : PyDate) (capacities : List (Option ℤ)) : DemandForecast :=
  let avg_daily_consumption := fleet_avg_daily_consumption capacities
  let forecasts := (List.range 7).map (fun i =>
    ({ day := i + 1,
       date := formatDate (addDays today ((i : ℤ) + 1)),
       predicted_demand_liters :=
         pyInt (avg_daily_consumption * (if i < 5 then 1 else 0.85)),
       confidence := 0.6 } : DailyForecast))
  { daily_forecasts := forecasts,
    weekly_total_demand_liters := pyInt (avg_daily_consumption * 6.7),
    average_daily_demand_liters := pyInt avg_daily_consumption }

/-- Normalizes a history entry by materializing the turbidity default 0
used by `detect_leakage_fallback`'s lookups. -/
def fillTurbidityDefault (r : Readings) : Readings :=
  ⟨r.ph, some (r.turbidity.getD 0), r.temperature⟩

/-! ### `gis_service.py` -/

/-- The ward bucket of `get_ward_geojson` (line 17):
`ward_id = f"ward_{int(lat * 10) % 10}_{int(lng * 10) % 10}"`, with
Python `int()` truncating toward zero and Python `%` returning a
nonnegative remainder (`Int.emod`). -/
def ward_id_of (lat lng : ℚ) : String :=
  "ward_" ++ toString (Int.emod (pyInt (lat * 10)) 10) ++ "_" ++
    toString (Int.emod (pyInt (lng * 10)) 10)

/-- The ward id exactly as the claim words it:
`A = floor(lat*10) mod 10`, `B = floor(lng*10) mod 10`.  Spec-side
definition, to be compared with `ward_id_of`. -/
def ward_id_claim (lat lng : ℚ) : String :=
  "ward_" ++ toString (Int.emod ⌊lat * 10⌋ 10) ++ "_" ++
    toString (Int.emod ⌊lng * 10⌋ 10)

/-- The pair of bucket indices the code derives from a coordinate. -/
def wardPair (lat lng : ℚ) : ℤ × ℤ :=
  (Int.emod (pyInt (lat * 10)) 10, Int.emod (pyInt (lng * 10)) 10)

/-- The pair of bucket indices as the claim computes them (floor). -/
def wardPairFloor (lat lng : ℚ) : ℤ × ℤ :=
  (Int.emod ⌊lat * 10⌋ 10, Int.emod ⌊lng * 10⌋ 10)

/-! ### `json_loader.py` — `update_maintenance` -/

/-- The fields of a tank record touched by `update_maintenance`:
`last_cleaned`, `next_maintenance`, and the nested `maintenance`
dictionary (`maintenance.last_cleaned`, `maintenance.notes`). -/
structure MTank where
  id : String
  last_cleaned : String
  next_maintenance : String
  maintenance_last_cleaned : Option String
  maintenance_notes : Option String
deriving DecidableEq

/-- One `maintenance_schedule` entry; `cleaning_interval_days` is read
with `.get('cleaning_interval_days', 30)`. -/
structure SchedEntry where
  tank_id : String
  cleaning_interval_days : Option ℤ
  last_cleaned : String
  next_scheduled : String
deriving DecidableEq

/-- The in-memory `data.json` document (the parts `update_maintenance`
reads or writes).  The same value stands for the in-memory cache and the
persisted file: step 6 of the Python function rewrites the whole file and
step 7 installs the same object as the cache. -/
structure Document where
  tanks : List MTank
  maintenance_schedule : List SchedEntry
deriving DecidableEq

/-- Outcome of `update_maintenance`: the three returned
`{"success": False, ...}` dictionaries, the uncaught `OverflowError`
that `cleaned_dt + timedelta(days=interval)` raises when the result
leaves the `datetime.date` range, or the success dictionary carrying the
updated tank. -/
inductive UMResult where
  | tankNotFound
  | scheduleNotFound
  | invalidDate
  | overflowError
  | success (tank : MTank)
deriving DecidableEq

/-- True only for the success outcome. -/
def UMResult.isSuccess : UMResult → Bool
  | .success _ => true
  | _ => false

/-- In-place mutation of the first list element satisfying `p`, as Python's
`for ... if ...: break` plus field assignments does. -/
def updateFirst {α : Type} (p : α → Bool) (f : α → α) : List α → List α
  | [] => []
  | x :: xs => if p x then f x :: xs else x :: updateFirst p f xs

/-- Step 5 of `update_maintenance` on the found tank: sets
`last_cleaned`, `next_maintenance`, `maintenance['last_cleaned']`, and —
only when `notes` is truthy (not `None`, not `""`) — `maintenance['notes']`. -/
def applyMaintenanceToTank (cleaned next : String) (notes : Option String) (t : MTank) : MTank :=
  { t with
    last_cleaned := cleaned,
    next_maintenance := next,
    maintenance_last_cleaned := some cleaned,
    maintenance_notes :=
      match notes with
      | some n => if n = "" then t.maintenance_notes else some n
      | none => t.maintenance_notes }

/-- Step 4 of `update_maintenance` on the found schedule entry. -/
def applyScheduleUpdate (cleaned next : String) (e : SchedEntry) : SchedEntry :=
  { e with last_cleaned := cleaned, next_scheduled := next }

/-- `update_maintenance(tank_id, cleaned_date, notes)` (lines 68-151):
find the first tank with the id, then the first schedule entry, then
parse the date (`ValueError` is caught and returned), compute
`next_scheduled = cleaned_dt + timedelta(days=interval)` (which raises
`OverflowError`, uncaught, out of range), mutate both records, persist,
and return the updated tank.  The second component is the document after
the call. -/
def update_maintenance (doc : Document) (tank_id cleaned_date : String)
    (notes : Option String) : UMResult × Document :=
  match doc.tanks.find? (fun t => t.id == tank_id) with
  | none => (UMResult.tankNotFound, doc)
  | some t =>
    match doc.maintenance_schedule.find? (fun e => e.tank_id == tank_id) with
    | none => (UMResult.scheduleNotFound, doc)
    | some e =>
      match parseDate cleaned_date with
      | none => (UMResult.invalidDate, doc)
      | some cleaned_dt =>
        let interval := e.cleaning_interval_days.getD 30
        match addDaysChecked cleaned_dt interval with
        | none => (UMResult.overflowError, doc)
        | some next_dt =>
          let next_str := formatDate next_dt
          let sched2 := updateFirst (fun x => x.tank_id == tank_id)
            (applyScheduleUpdate cleaned_date next_str) doc.maintenance_schedule
          let tanks2 := updateFirst (fun x => x.id == tank_id)
            (applyMaintenanceToTank cleaned_date next_str notes) doc.tanks
          (UMResult.success (applyMaintenanceToTank cleaned_date next_str notes t),
           ⟨tanks2, sched2⟩)

/-! ### Helper lemmas -/

/-- The computable `Rat.floor` agrees with the `⌊⌋` of the order-theoretic
`FloorRing` instance on `ℚ`. -/
theorem ratFloor_eq_intFloor (q : ℚ) : Rat.floor q = ⌊q⌋ := by
  rw [Rat.floor_def, Rat.floor_def']

/-- Python `int()` agrees with `floor` on nonnegative arguments. -/
theorem pyInt_of_nonneg (q : ℚ) (h : 0 ≤ q) : pyInt q = ⌊q⌋ := by
  rw [pyInt, if_pos h, ratFloor_eq_intFloor]

/-- Materializing the turbidity default 0 in every history entry leaves
the consecutive-difference list unchanged. -/
theorem turbidity_changes_map_fill (history : List Readings) :
    turbidity_changes (history.map fillTurbidityDefault) = turbidity_changes history := by
  induction history with
  | nil => rfl
  | cons a t ih =>
    cases t with
    | nil => rfl
    | cons b t2 =>
      show ((fillTurbidityDefault b).turbidity.getD 0 - (fillTurbidityDefault a).turbidity.getD 0)
          :: turbidity_changes ((b :: t2).map fillTurbidityDefault)
        = (b.turbidity.getD 0 - a.turbidity.getD 0) :: turbidity_changes (b :: t2)
      rw [ih]
      rfl

/-- Materializing the turbidity default 0 leaves the average change
unchanged. -/
theorem avg_turbidity_change_map_fill (history : List Readings) :
    avg_turbidity_change (history.map fillTurbidityDefault) = avg_turbidity_change history := by
  unfold avg_turbidity_change
  rw [turbidity_changes_map_fill]

/-- `find?` over `updateFirst` with the same predicate: when the update
preserves the predicate, it returns the updated found element. -/
theorem find?_updateFirst {α : Type} (p : α → Bool) (f : α → α)
    (hpf : ∀ a, p a = true → p (f a) = true) :
    ∀ l : List α, List.find? p (updateFirst p f l) = Option.map f (List.find? p l) := by
  intro l
  induction l with
  | nil => rfl
  | cons a t ih =>
    by_cases h : p a = true
    · rw [updateFirst, if_pos h, List.find?_cons_of_pos _ (hpf a h),
        List.find?_cons_of_pos _ h]
      rfl
    · have hb : p a = false := by simpa using h
      rw [updateFirst, if_neg (by simp [hb]), List.find?_cons_of_neg _ (by simp [hb]),
        List.find?_cons_of_neg _ (by simp [hb]), ih]

/-! ### Claim theorems -/

/-- C1: for every tank the status classifier is a pure function of
(ph, turbidity, days_since_cleaned) that agrees with the claim's ordered
threshold table — `critical` if ANY of turbidity > 7, pH < 6.0, pH > 9.0,
days > 60; else `warning` if pH outside [6.5, 8.5], turbidity > 5 or
days > 30; else `normal` — and always returns one of the three labels. -/
theorem status_classifier_matches_claim (ph turbidity : ℚ) (d : ℤ) :
    get_tank_status (some ⟨some ph, some turbidity, none⟩) d = statusClaimForm ph turbidity d ∧
    (get_tank_status (some ⟨some ph, some turbidity, none⟩) d = "normal" ∨
     get_tank_status (some ⟨some ph, some turbidity, none⟩) d = "warning" ∨
     get_tank_status (some ⟨some ph, some turbidity, none⟩) d = "critical") := by
  have hr : get_tank_status (some ⟨some ph, some turbidity, none⟩) d =
      (if turbidity > 5 ∨ ph < 6.5 ∨ ph > 8.5 ∨ d > 30 then
        if turbidity > 7 ∨ ph < 6 ∨ ph > 9 ∨ d > 60 then "critical" else "warning"
       else "normal") := rfl
  constructor
  · rw [hr]
    unfold statusClaimForm
    by_cases hc : turbidity > 7 ∨ ph < 6 ∨ ph > 9 ∨ d > 60
    · have hw : turbidity > 5 ∨ ph < 6.5 ∨ ph > 8.5 ∨ d > 30 := by
        rcases hc with h | h | h | h
        · exact Or.inl (by linarith)
        · exact Or.inr (Or.inl (by linarith))
        · exact Or.inr (Or.inr (Or.inl (by linarith)))
        · exact Or.inr (Or.inr (Or.inr (by omega)))
      rw [if_pos hw, if_pos hc, if_pos hc]
    · rw [if_neg hc]
      by_cases hw : turbidity > 5 ∨ ph < 6.5 ∨ ph > 8.5 ∨ d > 30
      · rw [if_pos hw, if_neg hc,
          if_pos (show ph < 6.5 ∨ ph > 8.5 ∨ turbidity > 5 ∨ d > 30 by tauto)]
      · rw [if_neg hw, if_neg hc,
          if_neg (show ¬(ph < 6.5 ∨ ph > 8.5 ∨ turbidity > 5 ∨ d > 30) by tauto)]
  · rw [hr]
    split_ifs <;> simp

/-- C2 (amended): for every fleet the demand-forecast fallback emits
exactly 7 daily forecasts with `day = 1..7`, predicted demand
`int(avg_daily * 1.0)` on days 1-5 and `int(avg_daily * 0.85)` on days
6-7, where `avg_daily = total fleet capacity * 0.15`; its
`weekly_total_demand_liters` equals `int(avg_daily * 6.7)` — Python `int`
truncation toward zero, not `round` — and is not the sum of the daily
entries. -/
theorem demand_forecast_fallback_structure (today : PyDate) (capacities : List (Option ℤ)) :
    (forecast_demand_fallback today capacities).daily_forecasts.length = 7 ∧
    ((forecast_demand_fallback today capacities).daily_forecasts.map DailyForecast.day
       = [1, 2, 3, 4, 5, 6, 7]) ∧
    ((forecast_demand_fallback today capacities).daily_forecasts.map
        DailyForecast.predicted_demand_liters
       = [pyInt (fleet_avg_daily_consumption capacities),
          pyInt (fleet_avg_daily_consumption capacities),
          pyInt (fleet_avg_daily_consumption capacities),
          pyInt (fleet_avg_daily_consumption capacities),
          pyInt (fleet_avg_daily_consumption capacities),
          pyInt (fleet_avg_daily_consumption capacities * 0.85),
          pyInt (fleet_avg_daily_consumption capacities * 0.85)]) ∧
    (forecast_demand_fallback today capacities).weekly_total_demand_liters
       = pyInt (fleet_avg_daily_consumption capacities * 6.7) ∧
    (forecast_demand_fallback today capacities).average_daily_demand_liters
       = pyInt (fleet_avg_daily_consumption capacities) := by
  refine ⟨rfl, rfl, ?_, rfl, rfl⟩
  show [pyInt (fleet_avg_daily_consumption capacities * 1),
        pyInt (fleet_avg_daily_consumption capacities * 1),
        pyInt (fleet_avg_daily_consumption capacities * 1),
        pyInt (fleet_avg_daily_consumption capacities * 1),
        pyInt (fleet_avg_daily_consumption capacities * 1),
        pyInt (fleet_avg_daily_consumption capacities * 0.85),
        pyInt (fleet_avg_daily_consumption capacities * 0.85)] = _
  rw [mul_one]

/-- C2 counterexample: for the single-tank fleet of capacity 150 liters,
`avg_daily = 150 * 0.15 = 22.5` and `avg_daily * 6.7 = 150.75`; the code's
`weekly_total_demand_liters = int(150.75) = 150`, whereas the claimed
`round(150.75) = 151`, so the claim's equation fails. -/
theorem demand_weekly_total_round_counterexample :
    (forecast_demand_fallback ⟨2025, 1, 1⟩ [some 150]).weekly_total_demand_liters = 150 ∧
    roundHalfEven (fleet_avg_daily_consumption [some 150] * 6.7) = 151 ∧
    (forecast_demand_fallback ⟨2025, 1, 1⟩ [some 150]).weekly_total_demand_liters ≠
      roundHalfEven (fleet_avg_daily_consumption [some 150] * 6.7) := by
  with_unfolding_all decide

/-- C3 (amended): for every tank id that has both a Tank and a
MaintenanceScheduleEntry, and every cleanedDate that parses as YYYY-MM-DD
and whose date plus `cleaning_interval_days` stays inside the
`datetime.date` range (year at most 9999), `update_maintenance` succeeds,
sets the schedule entry's `last_cleaned` to cleanedDate and
`next_scheduled` to cleanedDate + interval days, and sets the tank's
`last_cleaned` and `next_maintenance` to those same two values. -/
theorem update_maintenance_success_sets_fields
    (doc : Document) (tank_id cleaned_date : String) (notes : Option String)
    (t : MTank) (e : SchedEntry) (d0 nd : PyDate)
    (ht : doc.tanks.find? (fun x => x.id == tank_id) = some t)
    (he : doc.maintenance_schedule.find? (fun x => x.tank_id == tank_id) = some e)
    (hd : parseDate cleaned_date = some d0)
    (hn : addDaysChecked d0 (e.cleaning_interval_days.getD 30) = some nd) :
    (update_maintenance doc tank_id cleaned_date notes).1
      = UMResult.success (applyMaintenanceToTank cleaned_date (formatDate nd) notes t) ∧
    (update_maintenance doc tank_id cleaned_date notes).2.maintenance_schedule.find?
        (fun x => x.tank_id == tank_id)
      = some (applyScheduleUpdate cleaned_date (formatDate nd) e) ∧
    (update_maintenance doc tank_id cleaned_date notes).2.tanks.find?
        (fun x => x.id == tank_id)
      = some (applyMaintenanceToTank cleaned_date (formatDate nd) notes t) ∧
    (applyScheduleUpdate cleaned_date (formatDate nd) e).last_cleaned = cleaned_date ∧
    (applyScheduleUpdate cleaned_date (formatDate nd) e).next_scheduled = formatDate nd ∧
    (applyMaintenanceToTank cleaned_date (formatDate nd) notes t).last_cleaned = cleaned_date ∧
    (applyMaintenanceToTank cleaned_date (formatDate nd) notes t).next_maintenance
      = formatDate nd := by
  have hmain : update_maintenance doc tank_id cleaned_date notes
      = (UMResult.success (applyMaintenanceToTank cleaned_date (formatDate nd) notes t),
         ⟨updateFirst (fun x => x.id == tank_id)
            (applyMaintenanceToTank cleaned_date (formatDate nd) notes) doc.tanks,
          updateFirst (fun x => x.tank_id == tank_id)
            (applyScheduleUpdate cleaned_date (formatDate nd)) doc.maintenance_schedule⟩) := by
    simp only [update_maintenance, ht, he, hd, hn]
  refine ⟨by rw [hmain], ?_, ?_, rfl, rfl, rfl, rfl⟩
  · rw [hmain]
    have := find?_updateFirst (fun x : SchedEntry => x.tank_id == tank_id)
      (applyScheduleUpdate cleaned_date (formatDate nd)) (fun a ha => ha)
      doc.maintenance_schedule
    rw [this, he]
    rfl
  · rw [hmain]
    have := find?_updateFirst (fun x : MTank => x.id == tank_id)
      (applyMaintenanceToTank cleaned_date (formatDate nd) notes) (fun a ha => ha)
      doc.tanks
    rw [this, ht]
    rfl

/-- C3 witness: on a concrete document holding tank `t1` and a schedule
entry with `cleaning_interval_days = 30`, updating with cleaned date
`2025-06-01` succeeds and yields `next_scheduled = 2025-07-01` on both
the schedule entry and the tank (the month-boundary round trip). -/
theorem update_maintenance_roundtrip_witness :
    (update_maintenance
        ⟨[⟨"t1", "2025-01-01", "2025-01-31", none, none⟩],
         [⟨"t1", some 30, "2025-01-01", "2025-01-31"⟩]⟩
        "t1" "2025-06-01" (some "x")).2.maintenance_schedule.find?
      (fun x => x.tank_id == "t1")
      = some ⟨"t1", some 30, "2025-06-01", "2025-07-01"⟩ ∧
    (update_maintenance
        ⟨[⟨"t1", "2025-01-01", "2025-01-31", none, none⟩],
         [⟨"t1", some 30, "2025-01-01", "2025-01-31"⟩]⟩
        "t1" "2025-06-01" (some "x")).2.tanks.find? (fun x => x.id == "t1")
      = some ⟨"t1", "2025-06-01", "2025-07-01", some "2025-06-01", some "x"⟩ := by
  have h := update_maintenance_success_sets_fields
    ⟨[⟨"t1", "2025-01-01", "2025-01-31", none, none⟩],
     [⟨"t1", some 30, "2025-01-01", "2025-01-31"⟩]⟩
    "t1" "2025-06-01" (some "x")
    ⟨"t1", "2025-01-01", "2025-01-31", none, none⟩
    ⟨"t1", some 30, "2025-01-01", "2025-01-31"⟩
    ⟨2025, 6, 1⟩ ⟨2025, 7, 1⟩ (by decide) (by decide) (by decide) (by decide)
  exact ⟨h.2.1, h.2.2.1⟩

/-- C3 counterexample: `"9999-12-31"` parses as a YYYY-MM-DD calendar
date and the document holds both the tank and its schedule entry
(interval 30 days), yet `update_maintenance` does not succeed: the
addition `date(9999, 12, 31) + timedelta(days=30)` raises an uncaught
`OverflowError`, refuting "for every cleanedDate that parses ...
update_maintenance succeeds". -/
theorem update_maintenance_max_date_counterexample :
    parseDate "9999-12-31" = some ⟨9999, 12, 31⟩ ∧
    (⟨[⟨"t1", "2025-01-01", "2025-01-31", none, none⟩],
      [⟨"t1", some 30, "2025-01-01", "2025-01-31"⟩]⟩ : Document).tanks.find?
        (fun x => x.id == "t1") ≠ none ∧
    (⟨[⟨"t1", "2025-01-01", "2025-01-31", none, none⟩],
      [⟨"t1", some 30, "2025-01-01", "2025-01-31"⟩]⟩ : Document).maintenance_schedule.find?
        (fun x => x.tank_id == "t1") ≠ none ∧
    (update_maintenance
        ⟨[⟨"t1", "2025-01-01", "2025-01-31", none, none⟩],
         [⟨"t1", some 30, "2025-01-01", "2025-01-31"⟩]⟩
        "t1" "9999-12-31" none).1 = UMResult.overflowError ∧
    (update_maintenance
        ⟨[⟨"t1", "2025-01-01", "2025-01-31", none, none⟩],
         [⟨"t1", some 30, "2025-01-01", "2025-01-31"⟩]⟩
        "t1" "9999-12-31" none).1.isSuccess = false := by
  refine ⟨by decide, by decide, by decide, by decide, by decide⟩

/-- C4 (amended): `update_maintenance` returns a NotFound failure value
whenever the tank id matches no Tank or no MaintenanceScheduleEntry
(the tank lookup is checked first), and returns an InvalidDate failure
value whenever both records exist and cleanedDate does not parse as a
YYYY-MM-DD calendar date; all three expected outcomes are returned as
tagged values (the `ValueError` from parsing is caught inside the
function), never raised to the caller. -/
theorem update_maintenance_failure_taxonomy
    (doc : Document) (tank_id cleaned_date : String) (notes : Option String) :
    ((doc.tanks.find? (fun x => x.id == tank_id) = none ∨
      doc.maintenance_schedule.find? (fun x => x.tank_id == tank_id) = none) →
      ((update_maintenance doc tank_id cleaned_date notes).1 = UMResult.tankNotFound ∨
       (update_maintenance doc tank_id cleaned_date notes).1 = UMResult.scheduleNotFound)) ∧
    (doc.tanks.find? (fun x => x.id == tank_id) = none →
      (update_maintenance doc tank_id cleaned_date notes).1 = UMResult.tankNotFound) ∧
    (∀ t, doc.tanks.find? (fun x => x.id == tank_id) = some t →
      doc.maintenance_schedule.find? (fun x => x.tank_id == tank_id) = none →
      (update_maintenance doc tank_id cleaned_date notes).1 = UMResult.scheduleNotFound) ∧
    (∀ t e, doc.tanks.find? (fun x => x.id == tank_id) = some t →
      doc.maintenance_schedule.find? (fun x => x.tank_id == tank_id) = some e →
      parseDate cleaned_date = none →
      (update_maintenance doc tank_id cleaned_date notes).1 = UMResult.invalidDate) := by
  refine ⟨?_, ?_, ?_, ?_⟩
  · intro h
    cases htk : doc.tanks.find? (fun x => x.id == tank_id) with
    | none => exact Or.inl (by simp only [update_maintenance, htk])
    | some t =>
      rcases h with h1 | h2
      · rw [htk] at h1
        exact absurd h1 (by simp)
      · exact Or.inr (by simp only [update_maintenance, htk, h2])
  · intro h1
    simp only [update_maintenance, h1]
  · intro t h1 h2
    simp only [update_maintenance, h1, h2]
  · intro t e h1 h2 h3
    simp only [update_maintenance, h1, h2, h3]

/-- C4 witness: concrete instances of all three failure outcomes, via the
taxonomy theorem. -/
theorem update_maintenance_failure_taxonomy_witness :
    (update_maintenance ⟨[], []⟩ "t1" "2025-06-01" none).1 = UMResult.tankNotFound ∧
    (update_maintenance ⟨[⟨"t1", "a", "b", none, none⟩], []⟩ "t1" "2025-06-01" none).1
      = UMResult.scheduleNotFound ∧
    (update_maintenance ⟨[⟨"t1", "a", "b", none, none⟩], [⟨"t1", some 30, "a", "b"⟩]⟩
        "t1" "bad-date-x" none).1 = UMResult.invalidDate := by
  refine ⟨(update_maintenance_failure_taxonomy ⟨[], []⟩ "t1" "2025-06-01" none).2.1 (by decide),
    (update_maintenance_failure_taxonomy ⟨[⟨"t1", "a", "b", none, none⟩], []⟩
        "t1" "2025-06-01" none).2.2.1 ⟨"t1", "a", "b", none, none⟩ (by decide) (by decide),
    (update_maintenance_failure_taxonomy
        ⟨[⟨"t1", "a", "b", none, none⟩], [⟨"t1", some 30, "a", "b"⟩]⟩
        "t1" "bad-date-x" none).2.2.2 ⟨"t1", "a", "b", none, none⟩ ⟨"t1", some 30, "a", "b"⟩
      (by decide) (by decide) (by decide)⟩

/-- C4 counterexample: when the tank is missing AND the date is
unparseable, the code returns the NotFound value, not InvalidDate — so
"returns an InvalidDate failure result whenever cleanedDate does not
parse" is false as stated. -/
theorem invalid_date_shadowed_counterexample :
    parseDate "not-a-date" = none ∧
    (update_maintenance ⟨[], []⟩ "t1" "not-a-date" none).1 = UMResult.tankNotFound ∧
    (update_maintenance ⟨[], []⟩ "t1" "not-a-date" none).1 ≠ UMResult.invalidDate := by
  decide

/-- C5: the leakage/overflow fallback reports an anomaly iff
`current_level_percent < 30`, `> 95`, or the absolute average
sample-to-sample turbidity change exceeds 1; the anomaly type resolves by
priority overflow (level > 95), then leakage (level < 30), then
unusual_consumption; `overflow_risk_percent = max(0, (level - 85) * 5)`
when level > 85 and 0 otherwise; and the government alert is required iff
an anomaly is detected and level < 20. -/
theorem leakage_fallback_matches_claim (lvl? : Option ℚ) (history : List Readings) :
    ((detect_leakage_fallback lvl? history).anomaly_detected = true ↔
      (lvl?.getD 50 < 30 ∨ lvl?.getD 50 > 95 ∨ |avg_turbidity_change history| > 1)) ∧
    ((detect_leakage_fallback lvl? history).anomaly_detected = true →
      lvl?.getD 50 > 95 →
      (detect_leakage_fallback lvl? history).anomaly_type = "overflow") ∧
    ((detect_leakage_fallback lvl? history).anomaly_detected = true →
      ¬lvl?.getD 50 > 95 → lvl?.getD 50 < 30 →
      (detect_leakage_fallback lvl? history).anomaly_type = "leakage") ∧
    ((detect_leakage_fallback lvl? history).anomaly_detected = true →
      ¬lvl?.getD 50 > 95 → ¬lvl?.getD 50 < 30 →
      (detect_leakage_fallback lvl? history).anomaly_type = "unusual_consumption") ∧
    ((detect_leakage_fallback lvl? history).anomaly_detected = false →
      (detect_leakage_fallback lvl? history).anomaly_type = "none") ∧
    ((detect_leakage_fallback lvl? history).overflow_risk_percent
      = if lvl?.getD 50 > 85 then max 0 ((lvl?.getD 50 - 85) * 5) else 0) ∧
    ((detect_leakage_fallback lvl? history).government_alert_required = true ↔
      ((detect_leakage_fallback lvl? history).anomaly_detected = true ∧
        lvl?.getD 50 < 20)) := by
  by_cases h95 : lvl?.getD 50 > 95 <;>
    by_cases h30 : lvl?.getD 50 < 30 <;>
      by_cases havg : |avg_turbidity_change history| > 1 <;>
        simp [detect_leakage_fallback, h95, h30, havg]

/-- C5 witness: at `current_level_percent = 97` with empty history the
fallback detects an anomaly and classifies it as overflow. -/
theorem leakage_fallback_witness :
    (detect_leakage_fallback (some 97) []).anomaly_detected = true ∧
    (detect_leakage_fallback (some 97) []).anomaly_type = "overflow" := by
  have h := leakage_fallback_matches_claim (some 97) []
  have ha : (detect_leakage_fallback (some 97) []).anomaly_detected = true :=
    h.1.mpr (Or.inr (Or.inl (by with_unfolding_all decide)))
  exact ⟨ha, h.2.1 ha (by with_unfolding_all decide)⟩

/-- C6 (amended): the ward id is `"ward_A_B"` with
`A = int(lat*10) mod 10` and `B = int(lng*10) mod 10`, where `int`
truncates toward zero (this agrees with the claimed
`floor(lat*10) mod 10` whenever the coordinates are nonnegative); any two
tanks whose coordinates yield the same truncation pair land in the same
ward, and the two example tanks both map to `"ward_3_7"`. -/
theorem ward_id_matches_amended_claim :
    (∀ lat lng : ℚ, 0 ≤ lat → 0 ≤ lng → ward_id_of lat lng = ward_id_claim lat lng) ∧
    (∀ lat1 lng1 lat2 lng2 : ℚ, wardPair lat1 lng1 = wardPair lat2 lng2 →
      ward_id_of lat1 lng1 = ward_id_of lat2 lng2) ∧
    ward_id_of 12.34 56.78 = "ward_3_7" ∧
    ward_id_of 12.39 56.79 = "ward_3_7" := by
  refine ⟨?_, ?_, by with_unfolding_all decide, by with_unfolding_all decide⟩
  · intro lat lng hla hlb
    unfold ward_id_of ward_id_claim
    rw [pyInt_of_nonneg (lat * 10) (mul_nonneg hla (by norm_num)),
      pyInt_of_nonneg (lng * 10) (mul_nonneg hlb (by norm_num))]
  · intro lat1 lng1 lat2 lng2 h
    unfold wardPair at h
    rw [Prod.ext_iff] at h
    simp only at h
    unfold ward_id_of
    rw [h.1, h.2]

/-- C6 counterexample: latitudes -0.2 and -0.15 share the claimed
floor-based pair (`floor(-2.0) = floor(-1.5) = -2`, giving A = 8), yet the
code's truncation sends them to different wards (`int(-2.0) = -2` but
`int(-1.5) = -1`, giving 8 vs 9); on lat = -0.15 the claimed formula and
the code's ward id disagree outright. -/
theorem ward_id_floor_counterexample :
    wardPairFloor (-0.2) 0 = wardPairFloor (-0.15) 0 ∧
    ward_id_of (-0.2) 0 = "ward_8_0" ∧
    ward_id_of (-0.15) 0 = "ward_9_0" ∧
    ward_id_of (-0.2) 0 ≠ ward_id_of (-0.15) 0 ∧
    ward_id_claim (-0.15) 0 ≠ ward_id_of (-0.15) 0 := by
  with_unfolding_all decide

/-- C6 witness: on the nonnegative example coordinates the code's ward id
agrees with the claimed floor formula, and the two example tanks share a
ward. -/
theorem ward_id_witness :
    ward_id_of 12.34 56.78 = ward_id_claim 12.34 56.78 ∧
    ward_id_of 12.34 56.78 = ward_id_of 12.39 56.79 := by
  have h := ward_id_matches_amended_claim
  exact ⟨h.1 12.34 56.78 (by norm_num) (by norm_num),
    h.2.1 12.34 56.78 12.39 56.79 (by with_unfolding_all decide)⟩

/-- C7: trend analysis on fewer than 2 history points returns
`insufficient_data`; on 2 or more points it compares the last sample
against the first for ph, turbidity and temperature with strict
thresholds 0.3, 1, 1 and reports `data_points = len(history)`; a
difference exactly equal to the threshold counts as stable. -/
theorem trend_analysis_matches_claim :
    (∀ history : List HSample, history.length < 2 →
      get_trend_analysis history = TrendResult.insufficientData) ∧
    (∀ (h0 h1 : HSample) (rest : List HSample),
      get_trend_analysis (h0 :: h1 :: rest)
        = TrendResult.report
            (trendOf (List.getLastD (h0 :: h1 :: rest) h0).ph h0.ph 0.3)
            (trendOf (List.getLastD (h0 :: h1 :: rest) h0).turbidity h0.turbidity 1)
            (trendOf (List.getLastD (h0 :: h1 :: rest) h0).temperature h0.temperature 1)
            (rest.length + 2)) ∧
    (∀ a b t : ℚ, 0 ≤ t → a - b = t → trendOf a b t = "stable") ∧
    (∀ a b t : ℚ, 0 ≤ t → b - a = t → trendOf a b t = "stable") := by
  refine ⟨?_, ?_, ?_, ?_⟩
  · intro history hlen
    match history with
    | [] => rfl
    | [_] => rfl
    | x :: y :: rest =>
      simp at hlen
      omega
  · intro h0 h1 rest
    show TrendResult.report _ _ _ ((h0 :: h1 :: rest).length) = _
    simp [List.length_cons]
  · intro a b t ht h
    rw [trendOf, if_neg (by intro hc; linarith), if_neg (by intro hc; linarith)]
  · intro a b t ht h
    rw [trendOf, if_neg (by intro hc; linarith), if_neg (by intro hc; linarith)]

/-- C7 witness: empty and one-element histories give
`insufficient_data`; a two-point history whose differences sit exactly at
the thresholds (ph +0.3, turbidity +1, temperature +1) reports all three
trends stable with `data_points = 2`. -/
theorem trend_analysis_witness :
    get_trend_analysis [] = TrendResult.insufficientData ∧
    get_trend_analysis [⟨7, 1, 20⟩] = TrendResult.insufficientData ∧
    get_trend_analysis [⟨7, 1, 20⟩, ⟨7.3, 2, 21⟩]
      = TrendResult.report "stable" "stable" "stable" 2 ∧
    trendOf 7.3 7 0.3 = "stable" := by
  have h := trend_analysis_matches_claim
  refine ⟨h.1 [] (by decide), h.1 [⟨7, 1, 20⟩] (by decide), ?_,
    h.2.2.1 7.3 7 0.3 (by norm_num) (by norm_num)⟩
  rw [h.2.1 ⟨7, 1, 20⟩ ⟨7.3, 2, 21⟩ []]
  with_unfolding_all decide

/-- C8: no fallback predictor distinguishes a missing `current_readings`
dictionary (or a missing field in it) from one holding the documented
defaults — pH 7.0, turbidity 1.0 for the water-quality predictor and 0
for the maintenance and leakage predictors, temperature 20.0, water level
50 — so each fallback is a total function on tanks with incomplete
sensor data. -/
theorem fallback_predictors_default_on_missing_readings :
    (∀ history : List Readings,
      generate_fallback_prediction none history
        = generate_fallback_prediction (some ⟨some 7, some 1, some 20⟩) history) ∧
    (∀ (today : PyDate) (days? : Option ℤ),
      predict_maintenance_fallback today days? none
        = predict_maintenance_fallback today days? (some ⟨some 7, some 0, some 20⟩)) ∧
    (∀ history : List Readings,
      detect_leakage_fallback none history = detect_leakage_fallback (some 50) history) ∧
    (∀ (lvl? : Option ℚ) (history : List Readings),
      detect_leakage_fallback lvl? history
        = detect_leakage_fallback lvl? (history.map fillTurbidityDefault)) := by
  refine ⟨fun history => rfl, fun today days? => rfl, fun history => rfl, ?_⟩
  intro lvl? history
  unfold detect_leakage_fallback
  rw [avg_turbidity_change_map_fill]

/-- C9: whenever `update_maintenance` returns one of the three failure
values (tank not found, schedule entry not found, unparseable date) it
performs no mutation: the document — tanks list, maintenance_schedule
list, and hence the persisted file and in-memory cache, which the
function only rewrites on success — is exactly what it was before the
call. -/
theorem update_maintenance_failure_no_mutation
    (doc : Document) (tank_id cleaned_date : String) (notes : Option String)
    (h : (update_maintenance doc tank_id cleaned_date notes).1 = UMResult.tankNotFound ∨
         (update_maintenance doc tank_id cleaned_date notes).1 = UMResult.scheduleNotFound ∨
         (update_maintenance doc tank_id cleaned_date notes).1 = UMResult.invalidDate) :
    (update_maintenance doc tank_id cleaned_date notes).2 = doc := by
  cases h1 : doc.tanks.find? (fun x => x.id == tank_id) with
  | none => simp only [update_maintenance, h1]
  | some t =>
    cases h2 : doc.maintenance_schedule.find? (fun x => x.tank_id == tank_id) with
    | none => simp only [update_maintenance, h1, h2]
    | some e =>
      cases h3 : parseDate cleaned_date with
      | none => simp only [update_maintenance, h1, h2, h3]
      | some d0 =>
        cases h4 : addDaysChecked d0 (e.cleaning_interval_days.getD 30) with
        | none => simp only [update_maintenance, h1, h2, h3, h4]
        | some nd =>
          exfalso
          simp only [update_maintenance, h1, h2, h3, h4] at h
          rcases h with h | h | h <;> simp at h

/-- C9 witness: a failing call (unknown tank) leaves the empty document
untouched. -/
theorem update_maintenance_failure_no_mutation_witness :
    (update_maintenance ⟨[], []⟩ "t9" "2025-06-02" none).2 = (⟨[], []⟩ : Document) :=
  update_maintenance_failure_no_mutation ⟨[], []⟩ "t9" "2025-06-02" none (Or.inl (by decide))

/-- C10: the Analytics Rollup counts water-quality issues per tank —
pH outside [6.5, 8.5] one issue, turbidity above the 3/5 elif-chain one
issue, temperature above 25 one issue — with two or more issues giving
`critical`, exactly one `warning`, and `normal_count = total − critical −
warning`; `days_since_cleaned` plays no role, so a tank with
`ph = 7, turbidity = 0, temperature = 20, days_since_cleaned = 65` is
`critical` for the Status Classifier yet counted as normal here. -/
theorem analytics_rollup_matches_claim :
    (∀ ph turbidity temperature : ℚ,
      (water_quality_issues (some ⟨some ph, some turbidity, some temperature⟩)).length
        = issueCountClaim ph turbidity temperature) ∧
    (∀ ph turbidity temperature : ℚ,
      analyze_water_quality_risk_level (some ⟨some ph, some turbidity, some temperature⟩)
        = (if 2 ≤ issueCountClaim ph turbidity temperature then "critical"
           else if issueCountClaim ph turbidity temperature = 1 then "warning"
           else "normal")) ∧
    (∀ tanks : List (Option Readings),
      (get_system_analytics_counts tanks).critical_count
        = (tanks.filter (fun t => analyze_water_quality_risk_level t == "critical")).length ∧
      (get_system_analytics_counts tanks).warning_count
        = (tanks.filter (fun t => analyze_water_quality_risk_level t == "warning")).length ∧
      (get_system_analytics_counts tanks).normal_count
        = tanks.length - (get_system_analytics_counts tanks).critical_count
            - (get_system_analytics_counts tanks).warning_count) ∧
    get_tank_status (some ⟨some 7, some 0, some 20⟩) 65 = "critical" ∧
    analyze_water_quality_risk_level (some ⟨some 7, some 0, some 20⟩) = "normal" ∧
    get_system_analytics_counts [some ⟨some 7, some 0, some 20⟩] = ⟨0, 0, 1⟩ := by
  have hlen : ∀ ph turbidity temperature : ℚ,
      (water_quality_issues (some ⟨some ph, some turbidity, some temperature⟩)).length
        = issueCountClaim ph turbidity temperature := by
    intro ph turbidity temperature
    have hr : water_quality_issues (some ⟨some ph, some turbidity, some temperature⟩)
        = (if ph < 6.5 then ["pH too low"] else if ph > 8.5 then ["pH too high"] else []) ++
          (if turbidity > 5 then ["High turbidity"]
           else if turbidity > 3 then ["Elevated turbidity"] else []) ++
          (if temperature > 25 then ["Temperature elevated"] else []) := rfl
    rw [hr]
    unfold issueCountClaim
    by_cases hp1 : ph < 6.5 <;> by_cases hp2 : ph > 8.5 <;>
      by_cases ht5 : turbidity > 5 <;> by_cases ht3 : turbidity > 3 <;>
        by_cases hte : temperature > 25 <;>
          simp [hp1, hp2, ht5, ht3, hte] <;> exfalso <;> linarith
  refine ⟨hlen, ?_, fun tanks => ⟨rfl, rfl, rfl⟩, by with_unfolding_all decide,
    by with_unfolding_all decide, by with_unfolding_all decide⟩
  intro ph turbidity temperature
  show (if 2 ≤ (water_quality_issues
          (some ⟨some ph, some turbidity, some temperature⟩)).length then "critical"
        else if (water_quality_issues
          (some ⟨some ph, some turbidity, some temperature⟩)).length = 1 then "warning"
        else "normal") = _
  rw [hlen]
